import Mathlib

/-!
Shallow embedding of `src/main.py` (Smart Grid Power Consumption Analyzer).

Python floats are modelled as `ℚ`; a missing value (`NaN`) is `Option.none`.
`round(x, 2)` in Python rounds half to even (banker's rounding); we model it
exactly on `ℚ` via `roundHalfEven`.
-/

namespace SmartGrid

/-- Python's `round`-to-integer on a rational: round half to even. -/
def roundHalfEven (x : ℚ) : ℤ :=
  if Int.fract x = 1/2 then (if 2 ∣ ⌊x⌋ then ⌊x⌋ else ⌊x⌋ + 1) else round x

/-- Python `round(x, 2)`: round to two decimal places. -/
def round2 (x : ℚ) : ℚ := (roundHalfEven (100 * x) : ℚ) / 100

/-- Lines 188-192 of `main.py`: the risk-score rule.
`risk_score = round(0.6*violation_ratio + 0.4*peak_hour_risk, 2)` when
`violation_ratio >= 0.25 or peak_hour_risk == 1`, else `0`. -/
def risk_score (violation_ratio : ℚ) (peak_hour_risk : ℕ) : ℚ :=
  if violation_ratio ≥ 1/4 ∨ peak_hour_risk = 1 then
    round2 (6/10 * violation_ratio + 4/10 * (peak_hour_risk : ℚ))
  else 0

/-- Lines 194-202 of `main.py`: the risk-level thresholds. -/
def risk_level (risk_score : ℚ) : String :=
  if risk_score = 0 then "NO RISK"
  else if risk_score ≤ 30/100 then "LOW"
  else if risk_score ≤ 60/100 then "MEDIUM"
  else "HIGH"

/-! ## Data model

A CSV reading file holds rows `(household_id, timestamp, consumption_kwh)`;
a blank `consumption_kwh` cell is read by pandas as `NaN`, modelled `none`.
A JSON metadata file either fails to parse (`corrupt`) or yields a dict whose
fields may individually be absent (`Option`), matching the `.get` calls with
defaults in `load_and_merge_data`. -/

/-- One row of a tabular reading file. -/
structure RawRow where
  household_id : String
  timestamp : String
  consumption_kwh : Option ℚ
deriving DecidableEq

/-- One entry of the `districts` list of a metadata file; either field may be
absent (`district.get("district_id", ...)`, `district.get("threshold", ...)`). -/
structure DistrictMeta where
  district_id : Option String
  threshold : Option ℚ
deriving DecidableEq

/-- A parsed metadata dict; any field may be absent (`city_meta.get(...)`). -/
structure CityMeta where
  city : Option String
  date : Option String
  districts : Option (List DistrictMeta)
  critical_hours : Option (List String)
deriving DecidableEq

/-- A JSON metadata file: either `json.load` raises `JSONDecodeError`, or it
yields a `CityMeta`. -/
inductive JsonFile where
  | corrupt : JsonFile
  | parsed : CityMeta → JsonFile
deriving DecidableEq

/-- A CSV file as seen by `pd.read_csv`: either it raises `EmptyDataError`
(file with no content), or it yields a table of rows (possibly zero rows,
for a header-only file). -/
inductive CsvFile where
  | emptyData : CsvFile
  | table : List RawRow → CsvFile
deriving DecidableEq

/-- A row of the unified DataFrame: a reading joined with its metadata.
`hour` and `violation` are the columns `analyze_data` adds later; they are
absent (`none`) when the row leaves `load_and_merge_data`. -/
structure Row where
  household_id : String
  timestamp : String
  consumption_kwh : Option ℚ
  city : String
  district_id : String
  threshold : ℚ
  critical_hours : List String
  hour : Option ℕ
  violation : Option Bool
deriving DecidableEq

/-! ## Loader/Merger (`load_and_merge_data`, lines 92-146) -/

/-- pandas `Series.mean()`: the mean of the non-missing values, `NaN` (`none`)
when every value is missing. -/
def meanOpt (xs : List (Option ℚ)) : Option ℚ :=
  let vs := xs.filterMap id
  if vs.length = 0 then none else some (vs.sum / (vs.length : ℚ))

/-- Lines 132-135: if the file has any missing `consumption_kwh`, fill each
missing cell with the file mean.  When every value is missing the mean itself
is `NaN` and `fillna(NaN)` leaves the column unchanged. -/
def imputeFile (rows : List RawRow) : List RawRow :=
  if 0 < (rows.filter (fun r => r.consumption_kwh = none)).length then
    match meanOpt (rows.map (fun r => r.consumption_kwh)) with
    | none => rows
    | some m => rows.map (fun r => { r with consumption_kwh := some (r.consumption_kwh.getD m) })
  else rows

/-- Line 121: the CSV filename built for a district (directory part omitted). -/
def csvFilename (city district_id date : String) : String :=
  "district_" ++ city ++ "_" ++ district_id ++ "_" ++ date ++ ".csv"

/-- Lines 117-142, body of the district loop: locate the CSV, skip it
(`none`) when missing or empty, otherwise impute and attach the metadata
columns. -/
def loadDistrict (fs : String → Option CsvFile) (city date : String)
    (critical_hours : List String) (d : DistrictMeta) : Option (List Row) :=
  let district_id := d.district_id.getD "Unknown"
  let threshold := d.threshold.getD (15/10)
  match fs (csvFilename city district_id date) with
  | none => none
  | some CsvFile.emptyData => none
  | some (CsvFile.table rows) =>
      some ((imputeFile rows).map (fun r =>
        { household_id := r.household_id, timestamp := r.timestamp,
          consumption_kwh := r.consumption_kwh, city := city,
          district_id := district_id, threshold := threshold,
          critical_hours := critical_hours, hour := none, violation := none }))

/-- Lines 104-142, body of the JSON loop: a corrupted file contributes
nothing; a parsed one is read with defaults for absent fields and its
districts are loaded. -/
def loadCityMeta (fs : String → Option CsvFile) : JsonFile → List (List Row)
  | JsonFile.corrupt => []
  | JsonFile.parsed m =>
      let city := m.city.getD "UnknownCity"
      let date := m.date.getD "UnknownDate"
      let ch := m.critical_hours.getD []
      (m.districts.getD []).filterMap (loadDistrict fs city date ch)

/-- The `all_data` list: one table per successfully merged CSV. -/
def mergedTables (fs : String → Option CsvFile) (jsons : List JsonFile) : List (List Row) :=
  (jsons.map (loadCityMeta fs)).flatten

/-- Lines 92-146: `load_and_merge_data`.  Raises `ValueError` exactly when no
table merged, otherwise concatenates the tables. -/
def load_and_merge_data (fs : String → Option CsvFile) (jsons : List JsonFile) :
    Except String (List Row) :=
  let all_data := mergedTables fs jsons
  if all_data.isEmpty then
    Except.error "No data found. Please run data generation first."
  else Except.ok all_data.flatten

/-! ## Aggregator/Risk-Scorer (`analyze_data`, lines 152-246) -/

/-- The grouping date: first 10 characters of the timestamp (line 171). -/
def dateOf (ts : String) : String := ts.take 10

/-- The hour `pd.to_datetime(ts).dt.hour` extracts from a well-formed `"YYYY-MM-DD HH:00"`
timestamp: characters 11-12 (line 167). -/
def hourOf (ts : String) : ℕ := (((ts.drop 11).take 2).toNat?).getD 0

/-- Line 168: `consumption_kwh > threshold`; a `NaN` comparison is `False`. -/
def violationOf (c : Option ℚ) (threshold : ℚ) : Bool :=
  match c with
  | none => false
  | some v => decide (v > threshold)

/-- Lines 166-168: the two derived columns `analyze_data` writes into the
unified DataFrame. -/
def withDerived (r : Row) : Row :=
  { r with hour := some (hourOf r.timestamp),
           violation := some (violationOf r.consumption_kwh r.threshold) }

/-- The grouping key `(city, district_id, date)` of line 171. -/
def keyOf (r : Row) : String × String × String := (r.city, r.district_id, dateOf r.timestamp)

/-- The distinct group keys of the DataFrame (`groupby` group labels; pandas
emits them sorted, but no claim depends on their order). -/
def groupKeysOf (df : List Row) : List (String × String × String) :=
  (df.map keyOf).dedup

/-- The rows of one group, in DataFrame order. -/
def groupRows (df : List Row) (k : String × String × String) : List Row :=
  df.filter (fun r => keyOf r = k)

/-- Line 178, `group.groupby("hour")["consumption_kwh"].sum()` at hour `h`:
`NaN` values are skipped, an all-`NaN` hour sums to `0`. -/
def hourlySum (group : List Row) (h : ℕ) : ℚ :=
  ((group.filter (fun r => r.hour.getD 0 = h)).filterMap (fun r => r.consumption_kwh)).sum

/-- The hour values occurring in the group, ascending — the index of the
`groupby("hour")` series. -/
def hoursPresent (group : List Row) : List ℕ :=
  (List.range 24).filter (fun h => group.any (fun r => r.hour.getD 0 = h))

/-- pandas `Series.idxmax`: the first index attaining the maximum value (keep the
earlier index unless a later one is strictly greater). -/
def argmaxFirst (f : ℕ → ℚ) : List ℕ → Option ℕ
  | [] => none
  | x :: t =>
      match argmaxFirst f t with
      | none => some x
      | some b => if f b > f x then some b else some x

/-- Line 178: the peak hour of a group (the `getD 0` default is unreachable
for the nonempty groups `groupby` produces). -/
def peakHour (group : List Row) : ℕ :=
  (argmaxFirst (hourlySum group) (hoursPresent group)).getD 0

/-- Zero-padded two-digit rendering of an hour, as on line 179. -/
def twoDigit (n : ℕ) : String := (if n < 10 then "0" else "") ++ toString n

/-- The `"HH:00"` string form of the peak hour. -/
def peakHourStr (group : List Row) : String := twoDigit (peakHour group) ++ ":00"

/-- Lines 180-181: 1 iff the peak-hour string is among the group's
critical hours (taken from the group's first row). -/
def peakHourRisk (group : List Row) : ℕ :=
  if peakHourStr group ∈ (group.head?.map (fun r => r.critical_hours)).getD [] then 1 else 0

/-- Line 184: `group["violation"].sum()` counts the `True` rows. -/
def violationsOf (group : List Row) : ℕ :=
  (group.filter (fun r => r.violation.getD false)).length

/-- Line 186: `violations / total`. -/
def violationRatioOf (group : List Row) : ℚ :=
  (violationsOf group : ℚ) / (group.length : ℚ)

/-- One row of `results_df` (lines 205-206 / 216-219). -/
structure Summary where
  city : String
  district_id : String
  date : String
  avg_consumption : Option ℚ
  min_consumption : Option ℚ
  max_consumption : Option ℚ
  peak_hour : String
  violations : ℕ
  violation_ratio : ℚ
  risk_score : ℚ
  risk_level : String
deriving DecidableEq

/-- Lines 173-206: the per-group computation of `analyze_data`. -/
def summarize (k : String × String × String) (group : List Row) : Summary :=
  { city := k.1, district_id := k.2.1, date := k.2.2,
    avg_consumption := meanOpt (group.map (fun r => r.consumption_kwh)),
    min_consumption := (group.filterMap (fun r => r.consumption_kwh)).min?,
    max_consumption := (group.filterMap (fun r => r.consumption_kwh)).max?,
    peak_hour := peakHourStr group,
    violations := violationsOf group,
    violation_ratio := violationRatioOf group,
    risk_score := risk_score (violationRatioOf group) (peakHourRisk group),
    risk_level := risk_level (risk_score (violationRatioOf group) (peakHourRisk group)) }

/-- Lines 152-246: `analyze_data`.  It first writes the `hour` and
`violation` columns into the input DataFrame (mutation, returned as the first
component) and then produces one `Summary` per `(city, district_id, date)`
group. -/
def analyze_data (df : List Row) : List Row × List Summary :=
  let df2 := df.map withDerived
  (df2, (groupKeysOf df2).map (fun k => summarize k (groupRows df2 k)))

/-- Lines 274-288: the hourly-trend loop of `visualize_results`, the part that
reads the unified DataFrame.  It groups by `(city, district_id, date)` and
reads the `hour` column of each group; if that column was never added the
`group.groupby("hour")` call raises `KeyError` (modelled as `Except.error`)
as soon as a group exists. -/
def visualize_results (df : List Row) : Except String (List (String × String × String × ℕ)) :=
  if df.all (fun r => r.hour.isSome) then
    Except.ok ((groupKeysOf df).map (fun k => (k.1, k.2.1, k.2.2, peakHour (groupRows df k))))
  else Except.error "KeyError: hour"

/-! ## Spec-side definitions and concrete fixtures -/

/-- Imputation as worded in the spec: every missing consumption value is
replaced by the arithmetic mean of the non-missing values of the same table;
when the mean is undefined (all values missing) the fill is a no-op. -/
def imputeSpec (rows : List RawRow) : List RawRow :=
  match meanOpt (rows.map (fun r => r.consumption_kwh)) with
  | none => rows
  | some m => rows.map (fun r =>
      match r.consumption_kwh with
      | none => { r with consumption_kwh := some m }
      | some v => { r with consumption_kwh := some v })

/-- A unified row with `hour` and `violation` columns already set, as rows
look inside the `analyze_data` group loop. -/
def mkRow (h : ℕ) (c : Option ℚ) (v : Bool) : Row :=
  { household_id := "H001", timestamp := "2025-09-10 " ++ twoDigit h ++ ":00",
    consumption_kwh := c, city := "City1", district_id := "101",
    threshold := 15/10, critical_hours := ["18:00", "19:00", "20:00", "21:00"],
    hour := some h, violation := some v }

/-- A filesystem with a single CSV whose only consumption value is missing. -/
def fsAllMissing : String → Option CsvFile := fun name =>
  if name = "district_City1_101_2025-09-10.csv" then
    some (CsvFile.table
      [{ household_id := "H001", timestamp := "2025-09-10 00:00", consumption_kwh := none }])
  else none

/-- Metadata declaring exactly the district of `fsAllMissing`. -/
def jsonsAllMissing : List JsonFile :=
  [JsonFile.parsed
    { city := some "City1", date := some "2025-09-10",
      districts := some [{ district_id := some "101", threshold := some (15/10) }],
      critical_hours := some ["18:00"] }]

/-- The unified row `load_and_merge_data` produces from `fsAllMissing`. -/
def rowAllMissing : Row :=
  { household_id := "H001", timestamp := "2025-09-10 00:00", consumption_kwh := none,
    city := "City1", district_id := "101", threshold := 15/10,
    critical_hours := ["18:00"], hour := none, violation := none }

/-- A filesystem with a single one-row CSV, no value missing. -/
def fsOne : String → Option CsvFile := fun name =>
  if name = "district_City1_101_2025-09-10.csv" then
    some (CsvFile.table
      [{ household_id := "H001", timestamp := "2025-09-10 00:00", consumption_kwh := some 1 }])
  else none

/-- Metadata declaring exactly the district of `fsOne`. -/
def jsonsOne : List JsonFile :=
  [JsonFile.parsed
    { city := some "City1", date := some "2025-09-10",
      districts := some [{ district_id := some "101", threshold := some (12/10) }],
      critical_hours := some ["18:00", "19:00", "20:00", "21:00"] }]

/-- The unified table `load_and_merge_data` produces from `fsOne`. -/
def rowsOne : List Row :=
  [{ household_id := "H001", timestamp := "2025-09-10 00:00", consumption_kwh := some 1,
     city := "City1", district_id := "101", threshold := 12/10,
     critical_hours := ["18:00", "19:00", "20:00", "21:00"], hour := none, violation := none }]

/-- A filesystem where district 101 has a good CSV, district 102 an empty
CSV, and district 103 no CSV at all. -/
def fsMix : String → Option CsvFile := fun name =>
  if name = "district_City1_101_2025-09-10.csv" then
    some (CsvFile.table
      [{ household_id := "H001", timestamp := "2025-09-10 00:00", consumption_kwh := some 2 }])
  else if name = "district_City1_102_2025-09-10.csv" then some CsvFile.emptyData
  else none

/-- A corrupted metadata file followed by one declaring districts 101-103. -/
def jsonsMix : List JsonFile :=
  [JsonFile.corrupt,
   JsonFile.parsed
    { city := some "City1", date := some "2025-09-10",
      districts := some [{ district_id := some "101", threshold := some (12/10) },
                         { district_id := some "102", threshold := some (12/10) },
                         { district_id := some "103", threshold := some (12/10) }],
      critical_hours := some ["18:00"] }]

/-- A filesystem whose single CSV sits at the filename built from the
default city and date names. -/
def fsDefaults : String → Option CsvFile := fun name =>
  if name = "district_UnknownCity_101_UnknownDate.csv" then
    some (CsvFile.table
      [{ household_id := "H001", timestamp := "2025-09-10 00:00", consumption_kwh := some 2 }])
  else none

/-- A parsed metadata file missing its `city`, `date` and `critical_hours`
fields, with one district missing its `threshold`. -/
def jsonsDefaults : List JsonFile :=
  [JsonFile.parsed
    { city := none, date := none,
      districts := some [{ district_id := some "101", threshold := none }],
      critical_hours := none }]

/-- The unified row `load_and_merge_data` produces from `fsDefaults`:
all defaulted metadata fields are visible. -/
def rowDefaults : Row :=
  { household_id := "H001", timestamp := "2025-09-10 00:00", consumption_kwh := some 2,
    city := "UnknownCity", district_id := "101", threshold := 15/10,
    critical_hours := [], hour := none, violation := none }

/-! ## Rounding lemmas -/

theorem roundHalfEven_of_fract_lt {x : ℚ} (h : Int.fract x < 1/2) :
    roundHalfEven x = ⌊x⌋ := by
  unfold roundHalfEven
  rw [if_neg (ne_of_lt h), round_eq]
  have hx : x + 1/2 = (⌊x⌋ : ℚ) + (Int.fract x + 1/2) := by
    rw [← add_assoc, Int.floor_add_fract]
  rw [hx, Int.floor_int_add]
  have h0 : ⌊Int.fract x + 1/2⌋ = 0 := by
    rw [Int.floor_eq_zero_iff, Set.mem_Ico]
    exact ⟨by linarith [Int.fract_nonneg x], by linarith⟩
  rw [h0, add_zero]

theorem roundHalfEven_of_fract_gt {x : ℚ} (h : 1/2 < Int.fract x) :
    roundHalfEven x = ⌊x⌋ + 1 := by
  unfold roundHalfEven
  rw [if_neg (ne_of_gt h), round_eq]
  have hx : x + 1/2 = (⌊x⌋ : ℚ) + (Int.fract x + 1/2) := by
    rw [← add_assoc, Int.floor_add_fract]
  rw [hx, Int.floor_int_add]
  have h0 : ⌊Int.fract x + 1/2⌋ = 1 := by
    rw [Int.floor_eq_iff]
    constructor
    · push_cast
      linarith
    · push_cast
      linarith [Int.fract_lt_one x]
  rw [h0]

theorem floor_le_roundHalfEven (x : ℚ) : ⌊x⌋ ≤ roundHalfEven x := by
  unfold roundHalfEven
  split
  · split
    · exact le_refl _
    · omega
  · rw [round_eq]
    exact Int.floor_mono (by linarith)

theorem roundHalfEven_le_floor_add_one (x : ℚ) : roundHalfEven x ≤ ⌊x⌋ + 1 := by
  unfold roundHalfEven
  split
  · split
    · omega
    · exact le_refl _
  · rw [round_eq, ← Int.floor_add_one]
    exact Int.floor_mono (by linarith)

theorem roundHalfEven_mono : Monotone roundHalfEven := by
  intro x y hxy
  rcases lt_or_le ⌊x⌋ ⌊y⌋ with hf | hf
  · calc roundHalfEven x ≤ ⌊x⌋ + 1 := roundHalfEven_le_floor_add_one x
      _ ≤ ⌊y⌋ := by omega
      _ ≤ roundHalfEven y := floor_le_roundHalfEven y
  · have hfe : ⌊x⌋ = ⌊y⌋ := le_antisymm (Int.floor_mono hxy) hf
    have hfr : Int.fract x ≤ Int.fract y := by
      rw [← Int.self_sub_floor, ← Int.self_sub_floor, hfe]
      exact sub_le_sub_right hxy _
    rcases lt_trichotomy (Int.fract y) (1/2 : ℚ) with hy | hy | hy
    · rw [roundHalfEven_of_fract_lt (lt_of_le_of_lt hfr hy),
        roundHalfEven_of_fract_lt hy, hfe]
    · rw [hy] at hfr
      rcases eq_or_lt_of_le hfr with heq | hlt
      · have hxy2 : x = y := by
          rw [← Int.floor_add_fract x, ← Int.floor_add_fract y, hfe, heq, hy]
        rw [hxy2]
      · rw [roundHalfEven_of_fract_lt hlt, hfe]
        exact floor_le_roundHalfEven y
    · rw [roundHalfEven_of_fract_gt hy]
      have := roundHalfEven_le_floor_add_one x
      omega

theorem round2_mono {x y : ℚ} (h : x ≤ y) : round2 x ≤ round2 y := by
  unfold round2
  have h1 : roundHalfEven (100 * x) ≤ roundHalfEven (100 * y) :=
    roundHalfEven_mono (by linarith)
  have h2 : ((roundHalfEven (100 * x) : ℚ)) ≤ (roundHalfEven (100 * y) : ℚ) := by
    exact_mod_cast h1
  linarith

theorem round2_nonneg {x : ℚ} (h : 0 ≤ x) : 0 ≤ round2 x := by
  unfold round2
  have h1 : (0 : ℤ) ≤ ⌊(100 : ℚ) * x⌋ := Int.floor_nonneg.mpr (by linarith)
  have h2 : (0 : ℤ) ≤ roundHalfEven (100 * x) := le_trans h1 (floor_le_roundHalfEven _)
  have h3 : (0 : ℚ) ≤ (roundHalfEven (100 * x) : ℚ) := by exact_mod_cast h2
  linarith

/-! ## Argmax lemmas (the `idxmax` behaviour) -/

theorem argmaxFirst_isSome {f : ℕ → ℚ} {l : List ℕ} (h : l ≠ []) :
    ∃ b, argmaxFirst f l = some b := by
  cases l with
  | nil => exact absurd rfl h
  | cons x t =>
      simp only [argmaxFirst]
      cases argmaxFirst f t with
      | none => exact ⟨x, rfl⟩
      | some b =>
          by_cases h3 : f b > f x
          · exact ⟨b, by simp [h3]⟩
          · exact ⟨x, by simp [h3]⟩

theorem argmaxFirst_mem {f : ℕ → ℚ} {l : List ℕ} {b : ℕ}
    (h : argmaxFirst f l = some b) : b ∈ l := by
  induction l generalizing b with
  | nil => simp [argmaxFirst] at h
  | cons x t ih =>
      simp only [argmaxFirst] at h
      cases h2 : argmaxFirst f t with
      | none =>
          rw [h2] at h
          simp only [Option.some.injEq] at h
          simp [← h]
      | some c =>
          rw [h2] at h
          dsimp only at h
          by_cases h3 : f c > f x
          · rw [if_pos h3] at h
            simp only [Option.some.injEq] at h
            exact List.mem_cons_of_mem x (h ▸ ih h2)
          · rw [if_neg h3] at h
            simp only [Option.some.injEq] at h
            simp [← h]

theorem argmaxFirst_le {f : ℕ → ℚ} {l : List ℕ} {b : ℕ}
    (h : argmaxFirst f l = some b) : ∀ z ∈ l, f z ≤ f b := by
  induction l generalizing b with
  | nil => simp
  | cons x t ih =>
      simp only [argmaxFirst] at h
      cases h2 : argmaxFirst f t with
      | none =>
          rw [h2] at h
          simp only [Option.some.injEq] at h
          have ht : t = [] := by
            by_contra hne
            obtain ⟨c, hc⟩ := argmaxFirst_isSome (f := f) hne
            rw [hc] at h2
            exact Option.noConfusion h2
          subst ht
          intro z hz
          rw [List.mem_singleton] at hz
          rw [hz, ← h]
      | some c =>
          rw [h2] at h
          dsimp only at h
          by_cases h3 : f c > f x
          · rw [if_pos h3] at h
            simp only [Option.some.injEq] at h
            subst h
            intro z hz
            rcases List.mem_cons.mp hz with hzx | hzt
            · exact le_of_lt (hzx ▸ h3)
            · exact ih h2 z hzt
          · rw [if_neg h3] at h
            simp only [Option.some.injEq] at h
            subst h
            intro z hz
            rcases List.mem_cons.mp hz with hzx | hzt
            · exact le_of_eq (by rw [hzx])
            · exact le_trans (ih h2 z hzt) (not_lt.mp h3)

theorem argmaxFirst_first {f : ℕ → ℚ} {l : List ℕ} {b : ℕ}
    (hp : l.Pairwise (· < ·)) (h : argmaxFirst f l = some b) :
    ∀ z ∈ l, f z = f b → b ≤ z := by
  induction l generalizing b with
  | nil => simp
  | cons x t ih =>
      rw [List.pairwise_cons] at hp
      simp only [argmaxFirst] at h
      cases h2 : argmaxFirst f t with
      | none =>
          rw [h2] at h
          simp only [Option.some.injEq] at h
          have ht : t = [] := by
            by_contra hne
            obtain ⟨c, hc⟩ := argmaxFirst_isSome (f := f) hne
            rw [hc] at h2
            exact Option.noConfusion h2
          subst ht
          intro z hz _
          rw [List.mem_singleton] at hz
          rw [hz, ← h]
      | some c =>
          rw [h2] at h
          dsimp only at h
          by_cases h3 : f c > f x
          · rw [if_pos h3] at h
            simp only [Option.some.injEq] at h
            subst h
            intro z hz hfz
            rcases List.mem_cons.mp hz with hzx | hzt
            · exact absurd (hfz ▸ (hzx ▸ h3)) (lt_irrefl _)
            · exact ih hp.2 h2 z hzt hfz
          · rw [if_neg h3] at h
            simp only [Option.some.injEq] at h
            subst h
            intro z hz _
            rcases List.mem_cons.mp hz with hzx | hzt
            · exact le_of_eq hzx.symm
            · exact le_of_lt (hp.1 z hzt)

/-! ## Hours-present lemmas -/

theorem hoursPresent_pairwise (g : List Row) : (hoursPresent g).Pairwise (· < ·) :=
  (List.pairwise_lt_range 24).filter _

theorem mem_hoursPresent {g : List Row} {h : ℕ} :
    h ∈ hoursPresent g ↔ h < 24 ∧ ∃ r ∈ g, r.hour.getD 0 = h := by
  unfold hoursPresent
  rw [List.mem_filter, List.mem_range]
  simp

theorem hoursPresent_ne_nil {g : List Row} (hne : g ≠ [])
    (hh : ∀ r ∈ g, r.hour.getD 0 < 24) : hoursPresent g ≠ [] := by
  cases g with
  | nil => exact absurd rfl hne
  | cons r t =>
      have hmem : r.hour.getD 0 ∈ hoursPresent (r :: t) :=
        mem_hoursPresent.mpr ⟨hh r (List.mem_cons_self r t), r, List.mem_cons_self r t, rfl⟩
      intro hcon
      rw [hcon] at hmem
      exact List.not_mem_nil _ hmem

/-! ## Imputation lemmas -/

theorem meanOpt_eq_none {xs : List (Option ℚ)} (h : ∀ x ∈ xs, x = none) :
    meanOpt xs = none := by
  unfold meanOpt
  have : xs.filterMap id = [] := List.filterMap_eq_nil_iff.mpr h
  simp [this]

theorem meanOpt_isSome {xs : List (Option ℚ)} (h : ∃ x ∈ xs, x ≠ none) :
    ∃ m, meanOpt xs = some m := by
  unfold meanOpt
  obtain ⟨x, hx, hne⟩ := h
  obtain ⟨v, hv⟩ := Option.ne_none_iff_exists'.mp hne
  have hmem : v ∈ xs.filterMap id := List.mem_filterMap.mpr ⟨x, hx, by rw [hv]; rfl⟩
  have hlen : xs.filterMap id ≠ [] := List.ne_nil_of_mem hmem
  rw [if_neg (by simpa [List.length_eq_zero] using hlen)]
  exact ⟨_, rfl⟩

theorem imputeFile_all_missing {rows : List RawRow}
    (h : ∀ r ∈ rows, r.consumption_kwh = none) : imputeFile rows = rows := by
  unfold imputeFile
  have hm : meanOpt (rows.map (fun r => r.consumption_kwh)) = none :=
    meanOpt_eq_none (by
      intro x hx
      obtain ⟨r, hr, hrx⟩ := List.mem_map.mp hx
      rw [← hrx]
      exact h r hr)
  split
  · rw [hm]
  · rfl

theorem imputeFile_no_missing {rows : List RawRow}
    (h : ∃ r ∈ rows, r.consumption_kwh ≠ none) :
    ∀ r2 ∈ imputeFile rows, r2.consumption_kwh ≠ none := by
  unfold imputeFile
  by_cases hmiss : 0 < (rows.filter (fun r => r.consumption_kwh = none)).length
  · rw [if_pos hmiss]
    obtain ⟨m, hm⟩ := @meanOpt_isSome (rows.map (fun r => r.consumption_kwh)) (by
      obtain ⟨r, hr, hne⟩ := h
      exact ⟨r.consumption_kwh, List.mem_map.mpr ⟨r, hr, rfl⟩, hne⟩)
    rw [hm]
    intro r2 hr2
    obtain ⟨r, _, hrr2⟩ := List.mem_map.mp hr2
    rw [← hrr2]
    simp
  · rw [if_neg hmiss]
    intro r2 hr2 hnone
    apply hmiss
    have : r2 ∈ rows.filter (fun r => r.consumption_kwh = none) :=
      List.mem_filter.mpr ⟨hr2, by simp [hnone]⟩
    exact List.length_pos.mpr (List.ne_nil_of_mem this)

theorem imputeFile_eq_spec (rows : List RawRow) : imputeFile rows = imputeSpec rows := by
  unfold imputeFile imputeSpec
  by_cases hmiss : 0 < (rows.filter (fun r => r.consumption_kwh = none)).length
  · rw [if_pos hmiss]
    cases hm : meanOpt (rows.map (fun r => r.consumption_kwh)) with
    | none => rfl
    | some m =>
        apply List.map_congr_left
        intro r _
        cases hc : r.consumption_kwh <;> simp [hc]
  · rw [if_neg hmiss]
    have hall : ∀ r ∈ rows, r.consumption_kwh ≠ none := by
      intro r hr hnone
      apply hmiss
      have : r ∈ rows.filter (fun r => r.consumption_kwh = none) :=
        List.mem_filter.mpr ⟨hr, by simp [hnone]⟩
      exact List.length_pos.mpr (List.ne_nil_of_mem this)
    cases hm : meanOpt (rows.map (fun r => r.consumption_kwh)) with
    | none => rfl
    | some m =>
        symm
        have : ∀ r ∈ rows,
            (match r.consumption_kwh with
              | none => { r with consumption_kwh := some m }
              | some v => { r with consumption_kwh := some v }) = r := by
          intro r hr
          obtain ⟨v, hv⟩ := Option.ne_none_iff_exists'.mp (hall r hr)
          simp only [hv]
          rw [← hv]
        calc rows.map _ = rows.map id := List.map_congr_left (by
              intro r hr
              rw [this r hr]
              rfl)
          _ = rows := List.map_id rows

/-! ## Loader traversal lemmas -/

theorem loadDistrict_eq_some {fs : String → Option CsvFile} {city date : String}
    {ch : List String} {d : DistrictMeta} {t : List Row}
    (h : loadDistrict fs city date ch d = some t) :
    ∃ rows, fs (csvFilename city (d.district_id.getD "Unknown") date) =
        some (CsvFile.table rows) ∧
      t = (imputeFile rows).map (fun r =>
        { household_id := r.household_id, timestamp := r.timestamp,
          consumption_kwh := r.consumption_kwh, city := city,
          district_id := d.district_id.getD "Unknown",
          threshold := d.threshold.getD (15/10),
          critical_hours := ch, hour := none, violation := none }) := by
  unfold loadDistrict at h
  dsimp only at h
  cases hfs : fs (csvFilename city (d.district_id.getD "Unknown") date) with
  | none => rw [hfs] at h; exact Option.noConfusion h
  | some file =>
      cases file with
      | emptyData => rw [hfs] at h; exact Option.noConfusion h
      | table rows =>
          rw [hfs] at h
          dsimp only at h
          exact ⟨rows, rfl, (Option.some.inj h).symm⟩

theorem mem_mergedTables {fs : String → Option CsvFile} {jsons : List JsonFile}
    {t : List Row} (h : t ∈ mergedTables fs jsons) :
    ∃ city date ch d, loadDistrict fs city date ch d = some t := by
  unfold mergedTables at h
  obtain ⟨l, hl, hti⟩ := List.mem_flatten.mp h
  obtain ⟨j, _, hj⟩ := List.mem_map.mp hl
  cases j with
  | corrupt =>
      rw [← hj] at hti
      exact absurd hti (List.not_mem_nil t)
  | parsed m =>
      rw [← hj] at hti
      unfold loadCityMeta at hti
      obtain ⟨d, _, hd⟩ := List.mem_filterMap.mp hti
      exact ⟨_, _, _, d, hd⟩

theorem load_ok_mem {fs : String → Option CsvFile} {jsons : List JsonFile}
    {out : List Row} (h : load_and_merge_data fs jsons = Except.ok out) :
    ∀ r ∈ out, ∃ t ∈ mergedTables fs jsons, r ∈ t := by
  unfold load_and_merge_data at h
  by_cases he : (mergedTables fs jsons).isEmpty
  · rw [if_pos he] at h
    exact Except.noConfusion h
  · rw [if_neg he] at h
    have hout : out = (mergedTables fs jsons).flatten :=
      (Except.ok.injEq _ _ ▸ h).symm
    intro r hr
    rw [hout] at hr
    exact List.mem_flatten.mp hr

theorem load_ok_row_fresh {fs : String → Option CsvFile} {jsons : List JsonFile}
    {out : List Row} (h : load_and_merge_data fs jsons = Except.ok out) :
    ∀ r ∈ out, r.hour = none ∧ r.violation = none := by
  intro r hr
  obtain ⟨t, ht, hrt⟩ := load_ok_mem h r hr
  obtain ⟨city, date, ch, d, hd⟩ := mem_mergedTables ht
  obtain ⟨rows, _, htEq⟩ := loadDistrict_eq_some hd
  rw [htEq] at hrt
  obtain ⟨r0, _, hr0⟩ := List.mem_map.mp hrt
  rw [← hr0]
  exact ⟨rfl, rfl⟩

/-! ## Claims -/

/-- C1: for every `(city, district_id, date)` group, `risk_score` equals
`round(0.6*violation_ratio + 0.4*peak_hour_risk, 2)` when
`violation_ratio ≥ 0.25` or `peak_hour_risk = 1`, and equals `0` otherwise;
at the boundary `violation_ratio = 0.25`, `peak_hour_risk = 0` the score is
computed and equals `0.15`. -/
theorem C1_risk_score_gate (k : String × String × String) (g : List Row) :
    ((violationRatioOf g ≥ 1/4 ∨ peakHourRisk g = 1) →
      (summarize k g).risk_score =
        round2 (6/10 * violationRatioOf g + 4/10 * (peakHourRisk g : ℚ))) ∧
    (¬(violationRatioOf g ≥ 1/4 ∨ peakHourRisk g = 1) →
      (summarize k g).risk_score = 0) ∧
    risk_score (1/4) 0 = 15/100 := by
  refine ⟨?_, ?_, ?_⟩
  · intro h
    show risk_score (violationRatioOf g) (peakHourRisk g) = _
    rw [risk_score, if_pos h]
  · intro h
    show risk_score (violationRatioOf g) (peakHourRisk g) = 0
    rw [risk_score, if_neg h]
  · unfold risk_score round2 roundHalfEven
    norm_num [Int.fract]

/-- Witness for C1 at a concrete one-row group with violation ratio 1. -/
theorem C1_risk_score_gate_witness :
    (violationRatioOf [mkRow 0 (some 2) true] ≥ 1/4 ∨
      peakHourRisk [mkRow 0 (some 2) true] = 1) ∧
    (summarize ("City1", "101", "2025-09-10") [mkRow 0 (some 2) true]).risk_score =
      round2 (6/10 * violationRatioOf [mkRow 0 (some 2) true] +
        4/10 * (peakHourRisk [mkRow 0 (some 2) true] : ℚ)) := by
  have hgate : violationRatioOf [mkRow 0 (some 2) true] ≥ 1/4 ∨
      peakHourRisk [mkRow 0 (some 2) true] = 1 := by
    left
    norm_num [violationRatioOf, violationsOf, mkRow, List.filter]
  exact ⟨hgate, (C1_risk_score_gate ("City1", "101", "2025-09-10") _).1 hgate⟩

/-- C2: `risk_level` is a function of `risk_score` alone, with thresholds
`0 ↦ NO RISK`, `(0, 0.30] ↦ LOW`, `(0.30, 0.60] ↦ MEDIUM`, `(0.60, ∞) ↦
HIGH`; a score of exactly `0.60` maps to `MEDIUM`, and `risk_score = 0`
iff `risk_level = "NO RISK"`. -/
theorem C2_risk_level_thresholds (k : String × String × String) (g : List Row) (s : ℚ) :
    ((summarize k g).risk_level = risk_level ((summarize k g).risk_score)) ∧
    (s = 0 → risk_level s = "NO RISK") ∧
    (0 < s → s ≤ 30/100 → risk_level s = "LOW") ∧
    (30/100 < s → s ≤ 60/100 → risk_level s = "MEDIUM") ∧
    (60/100 < s → risk_level s = "HIGH") ∧
    risk_level (60/100) = "MEDIUM" ∧
    (s = 0 ↔ risk_level s = "NO RISK") := by
  refine ⟨rfl, ?_, ?_, ?_, ?_, ?_, ?_, ?_⟩
  · intro h
    rw [risk_level, if_pos h]
  · intro h1 h2
    rw [risk_level, if_neg (ne_of_gt h1), if_pos h2]
  · intro h1 h2
    rw [risk_level, if_neg (by positivity : ¬(s = 0)), if_neg (not_le.mpr h1), if_pos h2]
  · intro h1
    rw [risk_level, if_neg (by positivity : ¬(s = 0)),
      if_neg (not_le.mpr (by linarith : (30:ℚ)/100 < s)), if_neg (not_le.mpr h1)]
  · unfold risk_level
    norm_num
  · intro h
    rw [risk_level, if_pos h]
  · intro h
    by_contra hs
    rw [risk_level, if_neg hs] at h
    split_ifs at h <;> exact absurd h (by decide)

/-- Witness for C2 at the concrete score 0.15 (the LOW band). -/
theorem C2_risk_level_thresholds_witness :
    (0 : ℚ) < 15/100 ∧ (15/100 : ℚ) ≤ 30/100 ∧ risk_level (15/100) = "LOW" :=
  ⟨by norm_num, by norm_num,
    (C2_risk_level_thresholds ("", "", "") [] (15/100)).2.2.1 (by norm_num) (by norm_num)⟩

/-- C3 (counterexample): a tabular file whose consumption values are all
missing passes through `load_and_merge_data` with its missing value intact,
so the unified table can contain a missing `consumption_kwh`. -/
theorem C3_counterexample :
    load_and_merge_data fsAllMissing jsonsAllMissing = Except.ok [rowAllMissing] ∧
    rowAllMissing.consumption_kwh = none :=
  ⟨by rfl, rfl⟩

/-- C3 (amended): after `load_and_merge_data` returns, no row has a missing
`consumption_kwh`, provided every table in the filesystem is empty or has at
least one non-missing consumption value; a table whose values are all
missing keeps its missing values (see the counterexample). -/
theorem C3_no_missing_after_load (fs : String → Option CsvFile)
    (jsons : List JsonFile) (out : List Row)
    (hfs : ∀ name rows, fs name = some (CsvFile.table rows) →
        rows = [] ∨ ∃ r ∈ rows, r.consumption_kwh ≠ none)
    (h : load_and_merge_data fs jsons = Except.ok out) :
    ∀ r ∈ out, r.consumption_kwh ≠ none := by
  intro r hr
  obtain ⟨t, ht, hrt⟩ := load_ok_mem h r hr
  obtain ⟨city, date, ch, d, hd⟩ := mem_mergedTables ht
  obtain ⟨rows, hfsrows, htEq⟩ := loadDistrict_eq_some hd
  rw [htEq] at hrt
  obtain ⟨r0, hr0mem, hr0⟩ := List.mem_map.mp hrt
  rcases hfs _ _ hfsrows with hnil | hex
  · subst hnil
    rw [show imputeFile ([] : List RawRow) = [] from rfl] at hr0mem
    exact absurd hr0mem (List.not_mem_nil r0)
  · have hr0ne := imputeFile_no_missing hex r0 hr0mem
    rw [← hr0]
    simpa using hr0ne

/-- Witness for C3 (amended) on the one-file filesystem `fsOne`. -/
theorem C3_no_missing_after_load_witness :
    (∀ name rows, fsOne name = some (CsvFile.table rows) →
        rows = [] ∨ ∃ r ∈ rows, r.consumption_kwh ≠ none) ∧
    load_and_merge_data fsOne jsonsOne = Except.ok rowsOne ∧
    ∀ r ∈ rowsOne, r.consumption_kwh ≠ none := by
  have hfs : ∀ name rows, fsOne name = some (CsvFile.table rows) →
      rows = [] ∨ ∃ r ∈ rows, r.consumption_kwh ≠ none := by
    intro name rows h
    by_cases hn : name = "district_City1_101_2025-09-10.csv"
    · rw [fsOne, if_pos hn] at h
      right
      have hrows := CsvFile.table.inj (Option.some.inj h)
      refine ⟨RawRow.mk "H001" "2025-09-10 00:00" (some 1), ?_, by simp⟩
      rw [← hrows]
      exact List.mem_singleton.mpr rfl
    · rw [fsOne, if_neg hn] at h
      exact Option.noConfusion h
  exact ⟨hfs, by rfl, C3_no_missing_after_load fsOne jsonsOne rowsOne hfs (by rfl)⟩

/-- C4: within a loaded file, each missing consumption is replaced by the
arithmetic mean of the non-missing values of that file (the spec-side
`imputeSpec`), the all-missing fill is a no-op, the imputation happens
inside `load_and_merge_data` before any statistic, and `[1.0, missing,
3.0]` becomes `[1.0, 2.0, 3.0]`. -/
theorem C4_imputation (rows : List RawRow) :
    imputeFile rows = imputeSpec rows ∧
    ((∀ r ∈ rows, r.consumption_kwh = none) → imputeFile rows = rows) ∧
    (∀ (fs : String → Option CsvFile) city date ch d rows2 t,
        fs (csvFilename city (d.district_id.getD "Unknown") date) =
          some (CsvFile.table rows2) →
        loadDistrict fs city date ch d = some t →
        t.map (fun r => r.consumption_kwh) =
          (imputeFile rows2).map (fun r => r.consumption_kwh)) ∧
    imputeFile
      [{ household_id := "H001", timestamp := "2025-09-10 00:00", consumption_kwh := some 1 },
       { household_id := "H002", timestamp := "2025-09-10 01:00", consumption_kwh := none },
       { household_id := "H003", timestamp := "2025-09-10 02:00", consumption_kwh := some 3 }] =
      [{ household_id := "H001", timestamp := "2025-09-10 00:00", consumption_kwh := some 1 },
       { household_id := "H002", timestamp := "2025-09-10 01:00", consumption_kwh := some 2 },
       { household_id := "H003", timestamp := "2025-09-10 02:00", consumption_kwh := some 3 }] := by
  refine ⟨imputeFile_eq_spec rows, imputeFile_all_missing, ?_, ?_⟩
  · intro fs city date ch d rows2 t hfs hload
    obtain ⟨rows3, hfs3, ht3⟩ := loadDistrict_eq_some hload
    rw [hfs] at hfs3
    have hrows := CsvFile.table.inj (Option.some.inj hfs3)
    subst hrows
    rw [ht3, List.map_map]
    rfl
  · simp [imputeFile, meanOpt]
    norm_num

/-- Witness for C4 on a concrete all-missing file (the no-op fill). -/
theorem C4_imputation_witness :
    (∀ r ∈ [RawRow.mk "H001" "2025-09-10 00:00" none], r.consumption_kwh = none) ∧
    imputeFile [RawRow.mk "H001" "2025-09-10 00:00" none] =
      [RawRow.mk "H001" "2025-09-10 00:00" none] :=
  ⟨by simp, (C4_imputation _).2.1 (by simp)⟩

/-- C5: for every nonempty group whose hour column is in 0-23, `peak_hour`
is an hour occurring in the group, its hourly consumption sum is maximal,
and among tied hours the smallest one is chosen; for hourly sums
`{0: 5.0, 3: 5.0, 7: 2.0}` the peak hour is 0. -/
theorem C5_peak_hour (g : List Row) (hne : g ≠ [])
    (hh : ∀ r ∈ g, r.hour.getD 0 < 24) :
    peakHour g ∈ hoursPresent g ∧
    (∀ h ∈ hoursPresent g, hourlySum g h ≤ hourlySum g (peakHour g)) ∧
    (∀ h ∈ hoursPresent g, hourlySum g h = hourlySum g (peakHour g) → peakHour g ≤ h) ∧
    (∀ h, h ∈ hoursPresent g ↔ h < 24 ∧ ∃ r ∈ g, r.hour.getD 0 = h) ∧
    peakHour [mkRow 0 (some 5) false, mkRow 3 (some 5) false, mkRow 7 (some 2) false] = 0 := by
  obtain ⟨b, hb⟩ := argmaxFirst_isSome (f := hourlySum g) (hoursPresent_ne_nil hne hh)
  have hpk : peakHour g = b := by
    unfold peakHour
    rw [hb]
    rfl
  refine ⟨?_, ?_, ?_, fun h => mem_hoursPresent, ?_⟩
  · rw [hpk]
    exact argmaxFirst_mem hb
  · rw [hpk]
    exact argmaxFirst_le hb
  · rw [hpk]
    exact argmaxFirst_first (hoursPresent_pairwise g) hb
  · norm_num [peakHour, hoursPresent, hourlySum, argmaxFirst, mkRow, List.range_succ,
      List.filter, List.filterMap_cons]

/-- Witness for C5 on the three-row tie-break group itself. -/
theorem C5_peak_hour_witness :
    ([mkRow 0 (some 5) false, mkRow 3 (some 5) false, mkRow 7 (some 2) false] ≠
        ([] : List Row)) ∧
    (∀ r ∈ [mkRow 0 (some 5) false, mkRow 3 (some 5) false, mkRow 7 (some 2) false],
        r.hour.getD 0 < 24) ∧
    peakHour [mkRow 0 (some 5) false, mkRow 3 (some 5) false, mkRow 7 (some 2) false] ∈
      hoursPresent [mkRow 0 (some 5) false, mkRow 3 (some 5) false, mkRow 7 (some 2) false] := by
  have hne : [mkRow 0 (some 5) false, mkRow 3 (some 5) false, mkRow 7 (some 2) false] ≠
      ([] : List Row) := by simp
  have hh : ∀ r ∈ [mkRow 0 (some 5) false, mkRow 3 (some 5) false, mkRow 7 (some 2) false],
      r.hour.getD 0 < 24 := by
    intro r hr
    simp only [List.mem_cons, List.not_mem_nil, or_false] at hr
    rcases hr with h | h | h <;> subst h <;> norm_num [mkRow]
  exact ⟨hne, hh, (C5_peak_hour _ hne hh).1⟩

/-- C6: `load_and_merge_data` fails exactly when zero tables merged; a
corrupted metadata file, a missing CSV and an empty CSV are each skipped
without aborting, and whenever at least one table merges the call
succeeds. -/
theorem C6_error_iff_no_tables (fs : String → Option CsvFile) (jsons : List JsonFile) :
    ((∃ e, load_and_merge_data fs jsons = Except.error e) ↔ mergedTables fs jsons = []) ∧
    ((∃ out, load_and_merge_data fs jsons = Except.ok out) ↔ mergedTables fs jsons ≠ []) ∧
    loadCityMeta fs JsonFile.corrupt = [] ∧
    (∀ city date ch d, fs (csvFilename city (d.district_id.getD "Unknown") date) = none →
        loadDistrict fs city date ch d = none) ∧
    (∀ city date ch d,
        fs (csvFilename city (d.district_id.getD "Unknown") date) = some CsvFile.emptyData →
        loadDistrict fs city date ch d = none) := by
  refine ⟨?_, ?_, rfl, ?_, ?_⟩
  · unfold load_and_merge_data
    by_cases he : (mergedTables fs jsons).isEmpty
    · rw [if_pos he]
      exact ⟨fun _ => List.isEmpty_iff.mp he, fun _ => ⟨_, rfl⟩⟩
    · rw [if_neg he]
      constructor
      · rintro ⟨e, hcon⟩
        exact Except.noConfusion hcon
      · intro hnil
        exact absurd (List.isEmpty_iff.mpr hnil) he
  · unfold load_and_merge_data
    by_cases he : (mergedTables fs jsons).isEmpty
    · rw [if_pos he]
      constructor
      · rintro ⟨out, hcon⟩
        exact Except.noConfusion hcon
      · intro hne
        exact absurd (List.isEmpty_iff.mp he) hne
    · rw [if_neg he]
      exact ⟨fun _ => fun hnil => he (List.isEmpty_iff.mpr hnil), fun _ => ⟨_, rfl⟩⟩
  · intro city date ch d hmiss
    unfold loadDistrict
    dsimp only
    rw [hmiss]
  · intro city date ch d hempty
    unfold loadDistrict
    dsimp only
    rw [hempty]

/-- Witness for C6 on `fsMix`/`jsonsMix`: one corrupted metadata file, one
empty CSV and one missing CSV are all skipped, and the run still succeeds
because district 101 merges. -/
theorem C6_error_iff_no_tables_witness :
    mergedTables fsMix jsonsMix ≠ [] ∧
    (∃ out, load_and_merge_data fsMix jsonsMix = Except.ok out) ∧
    loadDistrict fsMix "City1" "2025-09-10" ["18:00"]
      { district_id := some "102", threshold := some (12/10) } = none ∧
    loadDistrict fsMix "City1" "2025-09-10" ["18:00"]
      { district_id := some "103", threshold := some (12/10) } = none := by
  have hne : mergedTables fsMix jsonsMix ≠ [] := by
    intro hcon
    exact List.noConfusion hcon
  refine ⟨hne, (C6_error_iff_no_tables fsMix jsonsMix).2.1.mpr hne, ?_, ?_⟩
  · exact (C6_error_iff_no_tables fsMix jsonsMix).2.2.2.2 "City1" "2025-09-10" ["18:00"]
      { district_id := some "102", threshold := some (12/10) } (by rfl)
  · exact (C6_error_iff_no_tables fsMix jsonsMix).2.2.2.1 "City1" "2025-09-10" ["18:00"]
      { district_id := some "103", threshold := some (12/10) } (by rfl)

/-- C7: a row is a violation iff its consumption strictly exceeds its
district threshold; consumption exactly equal to the threshold is not a
violation, and `analyze_data` writes exactly this per-row value into the
`violation` column. -/
theorem C7_violation_strict (r : Row) (v : ℚ) :
    (r.consumption_kwh = some v →
      (violationOf r.consumption_kwh r.threshold = true ↔ v > r.threshold)) ∧
    (r.consumption_kwh = some r.threshold →
      violationOf r.consumption_kwh r.threshold = false) ∧
    (∀ df r2, r2 ∈ (analyze_data df).1 →
        r2.violation = some (violationOf r2.consumption_kwh r2.threshold)) := by
  refine ⟨?_, ?_, ?_⟩
  · intro h
    rw [h]
    show decide (v > r.threshold) = true ↔ v > r.threshold
    exact decide_eq_true_iff
  · intro h
    rw [h]
    show decide (r.threshold > r.threshold) = false
    simp
  · intro df r2 hr2
    have hfst : (analyze_data df).1 = df.map withDerived := rfl
    rw [hfst] at hr2
    obtain ⟨r0, _, hr0⟩ := List.mem_map.mp hr2
    rw [← hr0]
    rfl

/-- Witness for C7 at a row whose consumption equals its threshold. -/
theorem C7_violation_strict_witness :
    (mkRow 0 (some (15/10)) false).consumption_kwh =
      some (mkRow 0 (some (15/10)) false).threshold ∧
    violationOf (mkRow 0 (some (15/10)) false).consumption_kwh
      (mkRow 0 (some (15/10)) false).threshold = false :=
  ⟨rfl, (C7_violation_strict (mkRow 0 (some (15/10)) false) (15/10)).2.1 rfl⟩

/-- C8: with `peak_hour_risk` fixed in `{0, 1}`, the risk score is monotone
in the violation ratio over `[0, 1]`. -/
theorem C8_risk_score_monotone (r1 r2 : ℚ) (phr : ℕ) (h0 : 0 ≤ r1) (h12 : r1 ≤ r2)
    (_h21 : r2 ≤ 1) (hphr : phr = 0 ∨ phr = 1) :
    risk_score r1 phr ≤ risk_score r2 phr := by
  unfold risk_score
  by_cases hg1 : r1 ≥ 1/4 ∨ phr = 1
  · have hg2 : r2 ≥ 1/4 ∨ phr = 1 := by
      rcases hg1 with h | h
      · exact Or.inl (le_trans h h12)
      · exact Or.inr h
    rw [if_pos hg1, if_pos hg2]
    exact round2_mono (by linarith)
  · rw [if_neg hg1]
    by_cases hg2 : r2 ≥ 1/4 ∨ phr = 1
    · rw [if_pos hg2]
      apply round2_nonneg
      push_neg at hg1
      rcases hphr with hz | ho
      · rw [hz]
        push_cast
        linarith
      · exact absurd ho hg1.2
    · rw [if_neg hg2]

/-- Witness for C8 at `0 ≤ 1/2` with `peak_hour_risk = 0`. -/
theorem C8_risk_score_monotone_witness :
    (0 : ℚ) ≤ 0 ∧ (0 : ℚ) ≤ 1/2 ∧ (1/2 : ℚ) ≤ 1 ∧
    risk_score 0 0 ≤ risk_score (1/2) 0 :=
  ⟨le_refl 0, by norm_num, by norm_num,
    C8_risk_score_monotone 0 (1/2) 0 (le_refl 0) (by norm_num) (by norm_num) (Or.inl rfl)⟩

/-- C9: only a JSON parse failure skips a metadata record; a parsed record
with missing fields is processed with the defaults `"UnknownCity"`,
`"UnknownDate"`, `[]` for `critical_hours` and threshold `1.5`, as the
concrete `fsDefaults` run shows. -/
theorem C9_metadata_defaults (fs : String → Option CsvFile) (m : CityMeta) :
    loadCityMeta fs JsonFile.corrupt = [] ∧
    loadCityMeta fs (JsonFile.parsed m) =
      (m.districts.getD []).filterMap
        (loadDistrict fs (m.city.getD "UnknownCity") (m.date.getD "UnknownDate")
          (m.critical_hours.getD [])) ∧
    load_and_merge_data fsDefaults jsonsDefaults = Except.ok [rowDefaults] ∧
    rowDefaults.city = "UnknownCity" ∧ rowDefaults.threshold = 15/10 ∧
    rowDefaults.critical_hours = [] :=
  ⟨rfl, rfl, by rfl, rfl, rfl, rfl⟩

/-- C10: `analyze_data` adds the `hour` and `violation` columns to the
unified table (which leaves the loader without them), so the table it
returns differs from its input, and the hourly-trend step of
`visualize_results` fails on the raw unified table but succeeds on the
table `analyze_data` returns. -/
theorem C10_analyze_mutates (fs : String → Option CsvFile) (jsons : List JsonFile)
    (out : List Row) (h : load_and_merge_data fs jsons = Except.ok out) :
    (∀ r ∈ out, r.hour = none ∧ r.violation = none) ∧
    (∀ r ∈ (analyze_data out).1,
        r.hour = some (hourOf r.timestamp) ∧
        r.violation = some (violationOf r.consumption_kwh r.threshold)) ∧
    (out ≠ [] →
      (analyze_data out).1 ≠ out ∧
      visualize_results out = Except.error "KeyError: hour") ∧
    (∃ charts, visualize_results ((analyze_data out).1) = Except.ok charts) := by
  have hfresh := load_ok_row_fresh h
  have hfst : (analyze_data out).1 = out.map withDerived := rfl
  refine ⟨hfresh, ?_, ?_, ?_⟩
  · intro r hr
    rw [hfst] at hr
    obtain ⟨r0, _, hr0⟩ := List.mem_map.mp hr
    rw [← hr0]
    exact ⟨rfl, rfl⟩
  · intro hne
    obtain ⟨r, rest, hcons⟩ := List.exists_cons_of_ne_nil hne
    constructor
    · rw [hfst, hcons]
      intro hcon
      have hhead : (withDerived r).hour = r.hour :=
        congrArg Row.hour (List.head_eq_of_cons_eq hcon)
      have hrnone : r.hour = none := (hfresh r (by rw [hcons]; exact List.mem_cons_self r rest)).1
      rw [hrnone] at hhead
      exact Option.noConfusion hhead
    · unfold visualize_results
      rw [if_neg]
      intro hall
      have hrnone : r.hour = none :=
        (hfresh r (by rw [hcons]; exact List.mem_cons_self r rest)).1
      have := List.all_eq_true.mp hall r (by rw [hcons]; exact List.mem_cons_self r rest)
      rw [hrnone] at this
      exact Bool.noConfusion this
  · have hall : ((analyze_data out).1).all (fun r => r.hour.isSome) = true := by
      apply List.all_eq_true.mpr
      intro r hr
      rw [hfst] at hr
      obtain ⟨r0, _, hr0⟩ := List.mem_map.mp hr
      rw [← hr0]
      rfl
    exact ⟨(groupKeysOf ((analyze_data out).1)).map
        (fun k => (k.1, k.2.1, k.2.2, peakHour (groupRows ((analyze_data out).1) k))),
      by unfold visualize_results; rw [if_pos hall]⟩

/-- Witness for C10 on the one-file filesystem `fsOne`. -/
theorem C10_analyze_mutates_witness :
    load_and_merge_data fsOne jsonsOne = Except.ok rowsOne ∧
    ∀ r ∈ rowsOne, r.hour = none ∧ r.violation = none :=
  ⟨by rfl, (C10_analyze_mutates fsOne jsonsOne rowsOne (by rfl)).1⟩

end SmartGrid
